import Mathlib

/-!
Shallow embedding of the conversational movie-search pipeline of
`backend/src/endpoints/chat_search.py`: the data model (Pydantic models),
the result filter (`apply_filters`), the deterministic fallback filter
extractor (`extract_filters_fallback`, including its regex rules, modelled
as explicit character scanners), the orchestrator's over-fetch/truncation
arithmetic, and the try/except structure around the vector-database query.

Python conventions carried over explicitly:
* `Optional` fields become `Option`; Python truthiness of `Optional[int]`
  (`None` and `0` are falsy) and of strings/lists (empty is falsy) is
  modelled by dedicated functions.
* `int(s)` is modelled by `pyInt?` (strip whitespace, optional sign,
  decimal digits); `s.split('-')[0]` by `beforeDash`.
* `re.search` with the concrete patterns of the source is modelled by
  left-to-right scanners that try each alternation branch in the order
  the pattern lists them, which coincides with Python's leftmost-match,
  alternation-in-order semantics for these backtracking-free patterns.
  `re.IGNORECASE` over ASCII input is modelled by lowercasing the text.
-/

/-- Pydantic model `ChatMessage`. -/
structure ChatMessage where
  role : String
  content : String
deriving DecidableEq

/-- Pydantic model `ChatSearchResultItem` (one candidate from the index). -/
structure ChatSearchResultItem where
  id : String
  title : Option String := none
  release_date : Option String := none
  genres : Option String := none
  overview : Option String := none
  poster_path : Option String := none
  distance : Float

/-- Pydantic model `ChatSearchFilters` (extracted conversation filters). -/
structure ChatSearchFilters where
  main_query : String := ""
  min_year : Option Int := none
  max_year : Option Int := none
  include_genres : List String := []
  exclude_genres : List String := []
deriving DecidableEq

/-- Python truthiness of an `Optional[int]`: `None` and `0` are falsy. -/
def pyTruthyInt : Option Int → Bool
  | none => false
  | some n => n != 0

/-- First list is an initial segment of the second. -/
def leadsWith : List Char → List Char → Bool
  | [], _ => true
  | _ :: _, [] => false
  | a :: as, b :: bs => a == b && leadsWith as bs

/-- First list occurs contiguously somewhere in the second. -/
def hasSub (needle : List Char) : List Char → Bool
  | [] => leadsWith needle []
  | hay@(_ :: rest) => leadsWith needle hay || hasSub needle rest

/-- Python `needle in hay` on strings (substring containment). -/
def strContainsSub (hay needle : String) : Bool :=
  hasSub needle.toList hay.toList

/-- Whitespace stripped by Python `int()` / matched by `\s` (ASCII part). -/
def isPySpaceChar (c : Char) : Bool :=
  c == ' ' || c == '\t' || c == '\n' || c == '\r' || c == Char.ofNat 11 || c == Char.ofNat 12

/-- ASCII decimal digit. -/
def isDigitChar (c : Char) : Bool :=
  '0' ≤ c && c ≤ '9'

/-- Word character for `\b` boundaries: `[a-zA-Z0-9_]` (ASCII part). -/
def isWordChar (c : Char) : Bool :=
  ('a' ≤ c && c ≤ 'z') || ('A' ≤ c && c ≤ 'Z') || isDigitChar c || c == '_'

/-- Value of a non-empty all-digit character list, `none` otherwise. -/
def digitsToNat? (cs : List Char) : Option Nat :=
  if cs.isEmpty then none
  else if cs.all isDigitChar then some (cs.foldl (fun a c => a * 10 + (c.toNat - 48)) 0)
  else none

/-- Python `int(s)` on a decimal string: strip whitespace, optional sign,
digits; `none` models `ValueError`. -/
def pyInt? (s : String) : Option Int :=
  let cs := ((s.toList.dropWhile isPySpaceChar).reverse.dropWhile isPySpaceChar).reverse
  match cs with
  | [] => none
  | '+' :: rest => (digitsToNat? rest).map Int.ofNat
  | '-' :: rest => (digitsToNat? rest).map (fun n => -(Int.ofNat n))
  | _ => (digitsToNat? cs).map Int.ofNat

/-- Python `s.lower()` (ASCII; the inputs of this pipeline are ASCII). -/
def pyLower (s : String) : String :=
  String.mk (s.toList.map Char.toLower)

/-- Python `s.split('-')[0]`: the text before the first `'-'`. -/
def beforeDash (s : String) : String :=
  String.mk (s.toList.takeWhile (fun c => c != '-'))

/-- `release_year = int(item.release_date.split('-')[0])` with the
`except (ValueError, IndexError): release_year = 0` handler. -/
def release_year (rd : String) : Int :=
  (pyInt? (beforeDash rd)).getD 0

/-- `item_genres_lower = item.genres.lower() if item.genres else ""`. -/
def item_genres_lower (item : ChatSearchResultItem) : String :=
  match item.genres with
  | some g => if g == "" then "" else pyLower g
  | none => ""

/-- Regional terms scanned by the special "indian" handling. -/
def regional_terms : List String := ["indian", "bollywood", "hindi"]

/-- `field and any(term in field.lower() for term in [...])` for one
optional text field of the candidate. -/
def fieldRegional (f : Option String) : Bool :=
  match f with
  | some s => s != "" && regional_terms.any (fun t => strContainsSub (pyLower s) t)
  | none => false

/-- The `indian_match` flag: a regional term occurs (case-insensitively)
in the candidate's genres, title, or overview. -/
def indian_match (item : ChatSearchResultItem) : Bool :=
  fieldRegional item.genres || fieldRegional item.title || fieldRegional item.overview

/-- `[g for g in filters.include_genres if g not in ["indian", "bollywood"]]`. -/
def other_genres (f : ChatSearchFilters) : List String :=
  f.include_genres.filter (fun g => !(["indian", "bollywood"].contains g))

/-- The `include_match` flag computed by `apply_filters`. -/
def include_match (f : ChatSearchFilters) (item : ChatSearchResultItem) : Bool :=
  if f.include_genres.isEmpty then true
  else if f.include_genres.contains "indian" || f.include_genres.contains "bollywood" then
    if f.include_genres.length == 1 &&
        (f.include_genres.contains "indian" || f.include_genres.contains "bollywood") then
      indian_match item
    else
      indian_match item ||
        ((other_genres f).isEmpty ||
          (other_genres f).any (fun g => strContainsSub (item_genres_lower item) (pyLower g)))
  else
    f.include_genres.any (fun g => strContainsSub (item_genres_lower item) (pyLower g))

/-- The `exclude_match` flag computed by `apply_filters`. -/
def exclude_match (f : ChatSearchFilters) (item : ChatSearchResultItem) : Bool :=
  if f.exclude_genres.isEmpty then false
  else f.exclude_genres.any (fun g => strContainsSub (item_genres_lower item) (pyLower g))

/-- `if filters.min_year and release_year < filters.min_year` (Python
truthiness: a `min_year` of `None` or `0` disables the check). -/
def min_year_fails (f : ChatSearchFilters) (ry : Int) : Bool :=
  match f.min_year with
  | some m => m != 0 && decide (ry < m)
  | none => false

/-- `if filters.max_year and release_year > filters.max_year`. -/
def max_year_fails (f : ChatSearchFilters) (ry : Int) : Bool :=
  match f.max_year with
  | some m => m != 0 && decide (ry > m)
  | none => false

/-- The per-candidate decision of `apply_filters`: `true` iff the loop
body reaches `filtered_results.append(item)`. -/
def keepItem (f : ChatSearchFilters) (item : ChatSearchResultItem) : Bool :=
  match item.release_date with
  | none => false
  | some rd =>
    if rd == "" then false
    else if min_year_fails f (release_year rd) then false
    else if max_year_fails f (release_year rd) then false
    else include_match f item && !(exclude_match f item)

/-- `apply_filters`: the loop appends, in input order, exactly the
candidates whose checks all pass. -/
def apply_filters (results : List ChatSearchResultItem) (f : ChatSearchFilters) :
    List ChatSearchResultItem :=
  results.filter (keepItem f)

/-! ## Fallback extractor (`extract_filters_fallback`) and its regex rules -/

/-- Match a literal character sequence at the head of the text, returning
the remaining text. -/
def matchLit : List Char → List Char → Option (List Char)
  | [], cs => some cs
  | _ :: _, [] => none
  | k :: ks, c :: cs => if c == k then matchLit ks cs else none

/-- Match `\s+` at the head of the text (greedy; every pattern in the
source follows `\s+` with a non-space literal or digit, so maximal munch
coincides with the regex semantics). -/
def ws1 : List Char → Option (List Char)
  | [] => none
  | c :: rest => if isPySpaceChar c then some (rest.dropWhile isPySpaceChar) else none

/-- Match `\d{4}` at the head of the text, returning its value and the
remaining text. -/
def digits4 : List Char → Option (Nat × List Char)
  | c1 :: c2 :: c3 :: c4 :: rest =>
    if isDigitChar c1 && isDigitChar c2 && isDigitChar c3 && isDigitChar c4 then
      some ((c1.toNat - 48) * 1000 + (c2.toNat - 48) * 100 +
        (c3.toNat - 48) * 10 + (c4.toNat - 48), rest)
    else none
  | _ => none

/-- `re.search` position loop: try the pattern matcher at each position of
the text, left to right, returning the first success. -/
def scanFirst (tryAt : List Char → Option α) : List Char → Option α
  | [] => tryAt []
  | cs@(_ :: rest) => tryAt cs <|> scanFirst tryAt rest

/-- One position of `(?:kw1|kw2|...)\s+(\d{4})`: try each keyword
alternative in pattern order, then whitespace, then the year group. -/
def tryKwYearAt (kws : List String) (cs : List Char) : Option Nat :=
  kws.findSome? fun kw => do
    let r ← matchLit kw.toList cs
    let r ← ws1 r
    let (y, _) ← digits4 r
    pure y

/-- Keyword alternatives of the `max_year` pattern
`(?:before|prior to|earlier than|until|up to)\s+(\d{4})`. -/
def before_keywords : List String :=
  ["before", "prior to", "earlier than", "until", "up to"]

/-- Keyword alternatives of the `min_year` pattern
`(?:after|since|from|later than|newer than)\s+(\d{4})`. -/
def after_keywords : List String :=
  ["after", "since", "from", "later than", "newer than"]

/-- The separator-and-second-year tail of the range pattern:
`(?:\s+to|\s*-\s*|\s+and\s+)(\d{4})`, alternatives in pattern order. -/
def tryRangeTail (r : List Char) : Option Nat :=
  (do
    let r2 ← ws1 r
    let r3 ← matchLit "to".toList r2
    let (y, _) ← digits4 r3
    pure y) <|>
  (do
    let r2 := r.dropWhile isPySpaceChar
    let r3 ← matchLit "-".toList r2
    let r4 := r3.dropWhile isPySpaceChar
    let (y, _) ← digits4 r4
    pure y) <|>
  (do
    let r2 ← ws1 r
    let r3 ← matchLit "and".toList r2
    let r4 ← ws1 r3
    let (y, _) ← digits4 r4
    pure y)

/-- One position of
`(?:from|between)\s+(\d{4})(?:\s+to|\s*-\s*|\s+and\s+)(\d{4})`. -/
def tryRangeAt (cs : List Char) : Option (Nat × Nat) :=
  ["from", "between"].findSome? fun kw => do
    let r ← matchLit kw.toList cs
    let r ← ws1 r
    let (y1, r) ← digits4 r
    let y2 ← tryRangeTail r
    pure (y1, y2)

/-- Match `(\d0)s` at the head of the text, returning the captured decade
value (`int` of the two captured characters). -/
def matchD0s : List Char → Option Nat
  | c1 :: c2 :: c3 :: _ =>
    if isDigitChar c1 && c2 == '0' && c3 == 's' then some ((c1.toNat - 48) * 10)
    else none
  | _ => none

/-- One position of `(?:in\s+the\s+|from\s+the\s+|)(\d0)s`, alternatives
in pattern order (the last prefix alternative is empty). -/
def tryDecadeAt (cs : List Char) : Option Nat :=
  (do
    let r ← matchLit "in".toList cs
    let r ← ws1 r
    let r ← matchLit "the".toList r
    let r ← ws1 r
    matchD0s r) <|>
  (do
    let r ← matchLit "from".toList cs
    let r ← ws1 r
    let r ← matchLit "the".toList r
    let r ← ws1 r
    matchD0s r) <|>
  matchD0s cs

/-- `\b` to the right of the year group: end of text or a non-word
character. -/
def wordEndOk : List Char → Bool
  | [] => true
  | c :: _ => !isWordChar c

/-- One position of `(?:in|from|released\s+in)\s+(\d{4})\b`. -/
def trySpecificAt (cs : List Char) : Option Nat :=
  [fun t => matchLit "in".toList t,
   fun t => matchLit "from".toList t,
   fun t => do
     let r ← matchLit "released".toList t
     let r ← ws1 r
     matchLit "in".toList r].findSome? fun m => do
    let r ← m cs
    let r ← ws1 r
    let (y, rest) ← digits4 r
    if wordEndOk rest then pure y else none

/-- The genre vocabulary scanned by the fallback extractor, in source
order. -/
def common_genres : List String :=
  ["action", "adventure", "animation", "comedy", "crime", "documentary", "drama",
   "family", "fantasy", "history", "horror", "music", "mystery", "romance",
   "science fiction", "sci-fi", "thriller", "war", "western", "indian", "bollywood"]

/-- Genre occurrence test for one position of `\b{genre}\b`: a left word
boundary (tracked via the previous character), the literal genre, and a
right word boundary. Every vocabulary term starts and ends with a word
character, so both boundaries require a non-word neighbour (or the text
edge). -/
def genreBoundaryHere (g : List Char) (prev : Option Char) (cs : List Char) : Bool :=
  (match prev with
   | none => true
   | some c => !isWordChar c) &&
  (match matchLit g cs with
   | some rest => wordEndOk rest
   | none => false)

/-- `re.search(rf'\b\x7bgenre\x7d\b', text)` as a position scan. -/
def searchGenreFrom (g : List Char) (prev : Option Char) : List Char → Bool
  | [] => genreBoundaryHere g prev []
  | cs@(c :: rest) => genreBoundaryHere g prev cs || searchGenreFrom g (some c) rest

/-- The characters of the literal `don't` in the exclusion cue
`don't\s+want` (apostrophe written via its code point). -/
def dont_cue : List Char := ['d', 'o', 'n', Char.ofNat 39, 't']

/-- The tail `\s+{genre}` of the exclusion pattern. -/
def exclTail (g : List Char) (r : List Char) : Bool :=
  match ws1 r with
  | some r2 => (matchLit g r2).isSome
  | none => false

/-- One position of `(not|except|don't\s+want|no)\s+{genre}`, cue
alternatives in pattern order. -/
def tryExclAt (g : List Char) (cs : List Char) : Bool :=
  (match matchLit "not".toList cs with
   | some r => exclTail g r
   | none => false) ||
  (match matchLit "except".toList cs with
   | some r => exclTail g r
   | none => false) ||
  (match (do
      let r ← matchLit dont_cue cs
      let r ← ws1 r
      matchLit "want".toList r) with
   | some r => exclTail g r
   | none => false) ||
  (match matchLit "no".toList cs with
   | some r => exclTail g r
   | none => false)

/-- `re.search` of the exclusion pattern over the whole text. -/
def searchExcl (g : List Char) : List Char → Bool
  | [] => tryExclAt g []
  | cs@(_ :: rest) => tryExclAt g cs || searchExcl g rest

/-- The genre loop: for each vocabulary term occurring with word
boundaries, classify it into exclude or include depending on an exclusion
cue, preserving vocabulary order (include list, exclude list). -/
def extractGenres (low : List Char) : List String × List String :=
  common_genres.foldl
    (fun acc g =>
      if searchGenreFrom g.toList none low then
        if searchExcl g.toList low then (acc.1, acc.2 ++ [g])
        else (acc.1 ++ [g], acc.2)
      else acc)
    ([], [])

/-- `" ".join([m.content for m in messages if m.role == "user"])`. -/
def joinUserContents (messages : List ChatMessage) : String :=
  String.intercalate " " ((messages.filter (fun m => m.role == "user")).map (fun m => m.content))

/-- `messages[-1].content if messages and messages[-1].role == "user"
else combined_text`. -/
def fallbackMainQuery (messages : List ChatMessage) : String :=
  match messages.getLast? with
  | some m => if m.role == "user" then m.content else joinUserContents messages
  | none => joinUserContents messages

/-- The year-rule chain of the fallback extractor, in source order:
before/after patterns, then the range pattern (overwrites both bounds),
then the decade pattern (overwrites both bounds), then the specific-year
pattern (applied only when both bounds are still falsy). -/
def fallbackYears (low : List Char) : Option Int × Option Int :=
  let max_year : Option Int := (scanFirst (tryKwYearAt before_keywords) low).map Int.ofNat
  let min_year : Option Int := (scanFirst (tryKwYearAt after_keywords) low).map Int.ofNat
  let p : Option Int × Option Int :=
    match scanFirst tryRangeAt low with
    | some (a, b) => (some (Int.ofNat a), some (Int.ofNat b))
    | none => (min_year, max_year)
  let p : Option Int × Option Int :=
    match scanFirst tryDecadeAt low with
    | some d => (some (Int.ofNat (1900 + d)), some (Int.ofNat (1900 + d + 9)))
    | none => p
  match scanFirst trySpecificAt low with
  | some y =>
    if !(pyTruthyInt p.1) && !(pyTruthyInt p.2) then (some (Int.ofNat y), some (Int.ofNat y))
    else p
  | none => p

/-- `extract_filters_fallback`: regex-based extraction over the
concatenated user messages (case-insensitive, modelled by lowercasing). -/
def extract_filters_fallback (messages : List ChatMessage) : ChatSearchFilters :=
  { main_query := fallbackMainQuery messages,
    min_year := (fallbackYears (pyLower (joinUserContents messages)).toList).1,
    max_year := (fallbackYears (pyLower (joinUserContents messages)).toList).2,
    include_genres := (extractGenres (pyLower (joinUserContents messages)).toList).1,
    exclude_genres := (extractGenres (pyLower (joinUserContents messages)).toList).2 }

/-! ## Orchestrator arithmetic (`chat_search_movies`) -/

/-- Python truthiness of the condition
`filters.min_year or filters.max_year or filters.include_genres or
filters.exclude_genres`. -/
def filtersActive (f : ChatSearchFilters) : Bool :=
  pyTruthyInt f.min_year || pyTruthyInt f.max_year ||
    !f.include_genres.isEmpty || !f.exclude_genres.isEmpty

/-- `multiplier = 3 if (...) else 1`. -/
def overfetch_multiplier (f : ChatSearchFilters) : Nat :=
  if filtersActive f then 3 else 1

/-- `min(n_results * multiplier, 50)`: the count requested from the
vector index. -/
def indexQueryCount (n_results : Nat) (f : ChatSearchFilters) : Nat :=
  min (n_results * overfetch_multiplier f) 50

/-- `filtered_results[:n_results]`: filter then truncate. -/
def finalResults (f : ChatSearchFilters) (n_results : Nat)
    (initial : List ChatSearchResultItem) : List ChatSearchResultItem :=
  (apply_filters initial f).take n_results

/-! ## The try/except structure around the vector-database query -/

/-- The shape of a FastAPI `HTTPException`. -/
structure HTTPErrorModel where
  status_code : Nat
  detail : String
deriving DecidableEq

/-- A Python exception escaping the try block: either the
`HTTPException` raised for a missing index directory, or any other
exception from the ChromaDB client/query calls. -/
inductive PyExc where
  | http (e : HTTPErrorModel)
  | other (msg : String)
deriving DecidableEq

/-- The detail of the `HTTPException` raised when the index directory is
missing (`f"ChromaDB directory not found at \x7bdb_dir\x7d. Run setup first."`). -/
def setup_error_detail (db_dir : String) : String :=
  "ChromaDB directory not found at " ++ db_dir ++ ". Run setup first."

/-- The detail of the `HTTPException` raised by the `except` handler. -/
def failed_query_detail : String := "Failed to query vector database."

/-- The body of the `try` block in `chat_search_movies`: check the index
directory, then run the client/query calls (whose outcome is a
parameter, the calls being external). -/
def chatSearchTryBlock (dirExists : Bool) (db_dir : String)
    (queryOutcome : Except String α) : Except PyExc α :=
  if !dirExists then Except.error (PyExc.http ⟨500, setup_error_detail db_dir⟩)
  else
    match queryOutcome with
    | Except.ok r => Except.ok r
    | Except.error m => Except.error (PyExc.other m)

/-- The `try`/`except Exception` around the query: every exception from
the block — including the `HTTPException` carrying the setup message,
since `HTTPException` is a subclass of `Exception` — is replaced by the
generic 500 response. -/
def chatSearchQueryStep (dirExists : Bool) (db_dir : String)
    (queryOutcome : Except String α) : Except HTTPErrorModel α :=
  match chatSearchTryBlock dirExists db_dir queryOutcome with
  | Except.ok r => Except.ok r
  | Except.error _ => Except.error ⟨500, failed_query_detail⟩

/-! ## Concrete values used by counterexamples and witnesses -/

/-- A candidate whose release date is present but unparsable. -/
def itemTBD : ChatSearchResultItem :=
  { id := "m1", title := some "Untitled Project", release_date := some "TBD",
    genres := none, overview := none, poster_path := none, distance := 0.5 }

/-- A candidate with a parsable release date and no regional term in any
text field. -/
def itemHeat : ChatSearchResultItem :=
  { id := "m3", title := some "Heat", release_date := some "1995-12-15",
    genres := some "Action", overview := some "Two men on opposite sides of the law.",
    poster_path := none, distance := 0.3 }

/-- A candidate matching both an include genre and an exclude genre. -/
def itemSlasher : ChatSearchResultItem :=
  { id := "m4", title := some "Slasher Run", release_date := some "1999-10-22",
    genres := some "Action, Horror", overview := none, poster_path := none, distance := 0.4 }

/-- A candidate whose title carries a regional term. -/
def itemBolly : ChatSearchResultItem :=
  { id := "m5", title := some "Bollywood Dreams", release_date := some "2004-05-01",
    genres := some "Drama", overview := none, poster_path := none, distance := 0.2 }

/-- A candidate with all checks passing under empty filters. -/
def itemOk : ChatSearchResultItem :=
  { id := "m0", title := some "Example", release_date := some "2001-07-20",
    genres := some "Drama", overview := none, poster_path := none, distance := 0.1 }

/-- Filters with no constraint set. -/
def emptyFilters : ChatSearchFilters :=
  { main_query := "", min_year := none, max_year := none,
    include_genres := [], exclude_genres := [] }

/-- Filters whose only constraint is both regional include terms. -/
def bothRegionalFilters : ChatSearchFilters :=
  { main_query := "", min_year := none, max_year := none,
    include_genres := ["indian", "bollywood"], exclude_genres := [] }

/-- Filters whose only constraint is the single include term "bollywood". -/
def bollyOnlyFilters : ChatSearchFilters :=
  { main_query := "", min_year := none, max_year := none,
    include_genres := ["bollywood"], exclude_genres := [] }

/-- Filters including "action" and excluding "horror". -/
def actionNotHorrorFilters : ChatSearchFilters :=
  { main_query := "", min_year := none, max_year := none,
    include_genres := ["action"], exclude_genres := ["horror"] }

/-- Filters whose only constraint is an upper year bound. -/
def maxOnlyFilters : ChatSearchFilters :=
  { main_query := "", min_year := none, max_year := some 2010,
    include_genres := [], exclude_genres := [] }

/-- Filters whose only constraint is a lower year bound. -/
def minOnlyFilters : ChatSearchFilters :=
  { main_query := "", min_year := some 2005, max_year := none,
    include_genres := [], exclude_genres := [] }

/-- Filters with `min_year` set to the falsy value `0`. -/
def zeroMinFilters : ChatSearchFilters :=
  { main_query := "", min_year := some 0, max_year := none,
    include_genres := [], exclude_genres := [] }

/-- The single-message conversation of the C7 test row. -/
def c7Messages : List ChatMessage :=
  [⟨"user", "Suggest action movies before 2010, not horror"⟩]

/-- A conversation whose final message is from the assistant while two
earlier user messages exist. -/
def c8Messages : List ChatMessage :=
  [⟨"user", "A"⟩, ⟨"user", "B"⟩, ⟨"assistant", "C"⟩]

/-- A single-user-message conversation. -/
def c8WitnessMessages : List ChatMessage := [⟨"user", "X"⟩]

/-! ## Helper lemmas -/

/-- `keepItem` unfolded on a candidate whose release date is known to be
present. -/
theorem keepItem_some (f : ChatSearchFilters) (item : ChatSearchResultItem) (rd : String)
    (h1 : item.release_date = some rd) :
    keepItem f item =
      (if rd == "" then false
       else if min_year_fails f (release_year rd) then false
       else if max_year_fails f (release_year rd) then false
       else include_match f item && !(exclude_match f item)) := by
  unfold keepItem
  rw [h1]

/-- The candidate of a kept loop iteration has its release date present
and non-empty, passes both bounds, and satisfies the genre checks. -/
theorem keepItem_eq_true_elim (f : ChatSearchFilters) (item : ChatSearchResultItem)
    (hk : keepItem f item = true) :
    include_match f item = true ∧ exclude_match f item = false := by
  unfold keepItem at hk
  split at hk
  · simp at hk
  · split at hk
    · simp at hk
    · split at hk
      · simp at hk
      · split at hk
        · simp at hk
        · simp only [Bool.and_eq_true, Bool.not_eq_true'] at hk
          exact hk

/-- When the include list is exactly one regional term, the inclusion
check reduces to the regional match. -/
theorem include_match_single_regional (f : ChatSearchFilters) (item : ChatSearchResultItem)
    (hg : f.include_genres = ["indian"] ∨ f.include_genres = ["bollywood"]) :
    include_match f item = indian_match item := by
  unfold include_match
  rcases hg with hg | hg <;> rw [hg] <;> rfl

/-- The last element of a list survives a filter whose predicate accepts
it, and stays last. -/
theorem getLast?_filter_of_getLast? (p : α → Bool) :
    ∀ (l : List α) (a : α), l.getLast? = some a → p a = true →
      (l.filter p).getLast? = some a := by
  intro l
  induction l with
  | nil => intro a h _; simp at h
  | cons x t ih =>
    intro a h hp
    cases t with
    | nil =>
      simp at h
      subst h
      simp [List.filter_cons, hp]
    | cons y t2 =>
      have h' : (y :: t2).getLast? = some a := by
        rwa [List.getLast?_cons_cons] at h
      have hrec := ih a h' hp
      rw [List.filter_cons]
      by_cases hx : p x = true
      · rw [hx]
        simp only [if_true]
        cases hfe : List.filter p (y :: t2) with
        | nil => rw [hfe] at hrec; simp at hrec
        | cons z zs =>
          rw [hfe] at hrec
          rw [List.getLast?_cons_cons]
          exact hrec
      · rw [Bool.eq_false_iff.mpr hx]
        simpa using hrec

/-! ## Claims -/

/-- C1 (confirmed): for every candidate list and every filter value, the
output of `apply_filters` is a subsequence of the input in the same
relative order — it never reorders candidates. -/
theorem c1_apply_filters_sublist (results : List ChatSearchResultItem)
    (f : ChatSearchFilters) : (apply_filters results f).Sublist results := by
  unfold apply_filters
  exact List.filter_sublist results

/-- The candidate has a present, non-empty release date (Python
truthiness of the `release_date` field). -/
def hasReleaseDate (item : ChatSearchResultItem) : Bool :=
  match item.release_date with
  | some rd => rd != ""
  | none => false

/-- C2 (counterexample): under empty filters, a candidate whose
release date is non-empty but unparsable is kept by the code, while the
claim says it must be dropped. -/
theorem c2_counterexample :
    pyInt? (beforeDash "TBD") = none ∧
      apply_filters [itemTBD] emptyFilters = [itemTBD] :=
  ⟨rfl, rfl⟩

/-- C2 (amended): with no constraints set, `apply_filters` is the
identity composed with dropping exactly the candidates whose release
date is missing or empty; non-empty unparsable dates are kept, since the
year 0 they produce is only consulted by the (inactive) bound checks. -/
theorem c2_empty_filters_drops_only_missing_dates (mq : String)
    (results : List ChatSearchResultItem) :
    apply_filters results
        { main_query := mq, min_year := none, max_year := none,
          include_genres := [], exclude_genres := [] } =
      results.filter hasReleaseDate := by
  unfold apply_filters
  apply List.filter_congr
  intro item _
  obtain ⟨iid, ititle, ird, igen, iov, ipp, idist⟩ := item
  cases ird with
  | none => rfl
  | some rd =>
    simp only [keepItem, hasReleaseDate, min_year_fails, max_year_fails,
      include_match, exclude_match]
    cases h : rd == "" with
    | true =>
      have hrd : rd = "" := eq_of_beq h
      subst hrd
      rfl
    | false => simp [h, bne]

/-- C10 (confirmed): every candidate in the output of `apply_filters`
has a present, non-empty release date, for every input list and every
filter value, including the all-empty filters. -/
theorem c10_kept_items_have_release_date (results : List ChatSearchResultItem)
    (f : ChatSearchFilters) (item : ChatSearchResultItem)
    (h : item ∈ apply_filters results f) : hasReleaseDate item = true := by
  unfold apply_filters at h
  have hk : keepItem f item = true := (List.mem_filter.mp h).2
  obtain ⟨iid, ititle, ird, igen, iov, ipp, idist⟩ := item
  cases ird with
  | none => simp [keepItem] at hk
  | some rd =>
    simp only [keepItem] at hk
    simp only [hasReleaseDate]
    cases he : rd == "" with
    | true => rw [he] at hk; simp at hk
    | false => simp [bne, he]

/-- C10 witness: a concrete kept candidate, via the theorem. -/
theorem c10_witness : hasReleaseDate itemOk = true :=
  c10_kept_items_have_release_date [itemOk] emptyFilters itemOk
    (List.mem_singleton_self itemOk)

/-- C4 (confirmed): a candidate whose genre text contains an excluded
genre (case-insensitive substring) is never in the output of
`apply_filters`, regardless of the include genres — exclusion wins. -/
theorem c4_exclusion_wins (results : List ChatSearchResultItem)
    (f : ChatSearchFilters) (item : ChatSearchResultItem)
    (h : exclude_match f item = true) : item ∉ apply_filters results f := by
  intro hmem
  unfold apply_filters at hmem
  have he := (keepItem_eq_true_elim f item (List.mem_filter.mp hmem).2).2
  rw [h] at he
  simp at he

/-- C4 witness: the claim's own instance — genres "Action, Horror" with
include "action" and exclude "horror" is dropped. -/
theorem c4_witness :
    exclude_match actionNotHorrorFilters itemSlasher = true ∧
      itemSlasher ∉ apply_filters [itemSlasher] actionNotHorrorFilters :=
  ⟨rfl, c4_exclusion_wins [itemSlasher] actionNotHorrorFilters itemSlasher rfl⟩

/-- C3 (counterexample): when the include list holds both regional terms
and nothing else, the special gate does not apply (the code requires the
include list to have length exactly 1), so a candidate with no regional
match in any text field is still kept. -/
theorem c3_counterexample :
    bothRegionalFilters.include_genres = ["indian", "bollywood"] ∧
      indian_match itemHeat = false ∧
      apply_filters [itemHeat] bothRegionalFilters = [itemHeat] :=
  ⟨rfl, rfl, rfl⟩

/-- C3 (amended): when the include list is exactly one regional term
("indian" or "bollywood"), a candidate can be in the output of
`apply_filters` only if a regional term occurs case-insensitively in its
genres, title, or overview. -/
theorem c3_single_regional_gate (results : List ChatSearchResultItem)
    (f : ChatSearchFilters) (item : ChatSearchResultItem) (g : String)
    (h1 : f.include_genres = [g]) (h2 : g = "indian" ∨ g = "bollywood")
    (h3 : item ∈ apply_filters results f) : indian_match item = true := by
  unfold apply_filters at h3
  have hinc := (keepItem_eq_true_elim f item (List.mem_filter.mp h3).2).1
  have hg : f.include_genres = ["indian"] ∨ f.include_genres = ["bollywood"] := by
    rcases h2 with rfl | rfl
    · exact Or.inl h1
    · exact Or.inr h1
  rw [include_match_single_regional f item hg] at hinc
  exact hinc

/-- C3 witness: a kept candidate under the single regional include term,
via the theorem. -/
theorem c3_witness : indian_match itemBolly = true :=
  c3_single_regional_gate [itemBolly] bollyOnlyFilters itemBolly "bollywood"
    rfl (Or.inr rfl) (List.mem_singleton_self itemBolly)

/-- Modelled from the claim's wording, for comparison with the code's
`overfetch_multiplier`: multiplier 3 when `min_year` or `max_year` is
set (non-null) or a genre list is non-empty, else 1. -/
def claimed_multiplier (f : ChatSearchFilters) : Nat :=
  if f.min_year ≠ none ∨ f.max_year ≠ none ∨
      f.include_genres ≠ [] ∨ f.exclude_genres ≠ [] then 3
  else 1

/-- C5 (counterexample): with `min_year` set to `0` — set but falsy in
Python — the code uses multiplier 1 and requests 5 candidates for
requested count 5, while the claim's multiplier is 3. -/
theorem c5_counterexample :
    zeroMinFilters.min_year ≠ none ∧
      claimed_multiplier zeroMinFilters = 3 ∧
      overfetch_multiplier zeroMinFilters = 1 ∧
      indexQueryCount 5 zeroMinFilters = 5 := by
  refine ⟨by simp [zeroMinFilters], by decide, rfl, rfl⟩

/-- C5 (amended): the over-fetch multiplier is 3 exactly when some
filter field is truthy (a year bound set to a nonzero value, or a
non-empty genre list): then the index is asked for `min(3 n, 50)`
candidates; with no truthy filter it is asked for exactly `n`; and the
final result list has length at most `n`. -/
theorem c5_overfetch_and_truncation (n : Nat) (f : ChatSearchFilters)
    (initial : List ChatSearchResultItem) (h1 : 1 ≤ n) (h2 : n ≤ 20) :
    (filtersActive f = false → indexQueryCount n f = n) ∧
      (filtersActive f = true → indexQueryCount n f = min (3 * n) 50) ∧
      (finalResults f n initial).length ≤ n := by
  refine ⟨?_, ?_, ?_⟩
  · intro hf
    unfold indexQueryCount overfetch_multiplier
    rw [hf]
    simp only [if_false, Bool.false_eq_true, Nat.mul_one]
    omega
  · intro hf
    unfold indexQueryCount overfetch_multiplier
    rw [hf]
    simp [Nat.mul_comm]
  · unfold finalResults
    rw [List.length_take]
    exact min_le_left _ _

/-- C5 witness: concrete active filters with requested count 5, via the
theorem. -/
theorem c5_witness :
    (filtersActive maxOnlyFilters = false → indexQueryCount 5 maxOnlyFilters = 5) ∧
      (filtersActive maxOnlyFilters = true →
        indexQueryCount 5 maxOnlyFilters = min (3 * 5) 50) ∧
      (finalResults maxOnlyFilters 5 []).length ≤ 5 :=
  c5_overfetch_and_truncation 5 maxOnlyFilters [] (by decide) (by decide)

/-- C6 (counterexample): a candidate with a non-empty unparsable release
date gets year 0, yet with only `max_year` set it passes both bound
checks (0 never exceeds a positive bound) and is kept — the claim says
any set bound drops it. -/
theorem c6_counterexample :
    release_year "TBD" = 0 ∧
      maxOnlyFilters.max_year = some 2010 ∧
      apply_filters [itemTBD] maxOnlyFilters = [itemTBD] :=
  ⟨rfl, rfl, rfl⟩

/-- C6 (amended): a candidate with a non-empty, unparsable release date
gets year 0, and is dropped by the bound checks whenever `min_year` is
set to a positive value. -/
theorem c6_unparsable_year_zero (results : List ChatSearchResultItem)
    (f : ChatSearchFilters) (item : ChatSearchResultItem) (rd : String) (m : Int)
    (h1 : item.release_date = some rd) (h2 : rd ≠ "")
    (h3 : pyInt? (beforeDash rd) = none) (h4 : f.min_year = some m) (h5 : 0 < m) :
    release_year rd = 0 ∧ item ∉ apply_filters results f := by
  have hy : release_year rd = 0 := by
    unfold release_year
    rw [h3]
    rfl
  refine ⟨hy, ?_⟩
  intro hmem
  unfold apply_filters at hmem
  have hk := (List.mem_filter.mp hmem).2
  have hmf : min_year_fails f (release_year rd) = true := by
    simp only [min_year_fails, h4, hy]
    simp only [Bool.and_eq_true, bne_iff_ne, decide_eq_true_eq]
    exact ⟨by omega, h5⟩
  rw [keepItem_some f item rd h1, hmf] at hk
  simp at hk

/-- C6 witness: the unparsable candidate is dropped once a positive
`min_year` is set, via the theorem. -/
theorem c6_witness :
    release_year "TBD" = 0 ∧ itemTBD ∉ apply_filters [itemTBD] minOnlyFilters :=
  c6_unparsable_year_zero [itemTBD] minOnlyFilters itemTBD "TBD" 2005
    rfl (by decide) rfl rfl (by decide)

/-- C7 (confirmed): on the single user message "Suggest action movies
before 2010, not horror", the fallback extractor returns that text as the
main query, sets only `max_year = 2010`, includes exactly "action", and
excludes exactly "horror". -/
theorem c7_fallback_extraction :
    extract_filters_fallback c7Messages =
      { main_query := "Suggest action movies before 2010, not horror",
        min_year := none, max_year := some 2010,
        include_genres := ["action"], exclude_genres := ["horror"] } := by
  rfl

/-- Modelled from the spec wording, for comparison: the content of the
last message with role "user". -/
def lastUserContent (messages : List ChatMessage) : Option String :=
  ((messages.filter (fun m => m.role == "user")).getLast?).map (fun m => m.content)

/-- C8 (counterexample): when the final message is from the assistant,
the code falls back to the concatenated user text even though a last
user-role message exists — here main_query is "A B", not "B". -/
theorem c8_counterexample :
    lastUserContent c8Messages = some "B" ∧
      (extract_filters_fallback c8Messages).main_query = "A B" ∧
      (extract_filters_fallback c8Messages).main_query ≠ "B" := by
  refine ⟨rfl, rfl, by decide⟩

/-- C8 (amended): main_query is the content of the final message when
that final message has role "user" (in which case it coincides with the
last user-role message); otherwise it is the space-joined concatenation
of all user-role message contents. -/
theorem c8_main_query_rule (messages : List ChatMessage) (m : ChatMessage)
    (h : messages.getLast? = some m) :
    (m.role = "user" →
      (extract_filters_fallback messages).main_query = m.content ∧
        lastUserContent messages = some m.content) ∧
      (m.role ≠ "user" →
        (extract_filters_fallback messages).main_query = joinUserContents messages) := by
  have hmq : (extract_filters_fallback messages).main_query = fallbackMainQuery messages := rfl
  constructor
  · intro hrole
    constructor
    · rw [hmq]
      simp only [fallbackMainQuery, h]
      simp [hrole]
    · have hgl : ((messages.filter (fun x => x.role == "user")).getLast?) = some m :=
        getLast?_filter_of_getLast? (fun x => x.role == "user") messages m h (by simp [hrole])
      unfold lastUserContent
      rw [hgl]
      rfl
  · intro hrole
    rw [hmq]
    simp only [fallbackMainQuery, h]
    have hb : (m.role == "user") = false := beq_eq_false_iff_ne.mpr hrole
    simp [hb]

/-- C8 witness: a single-user-message conversation, via the theorem. -/
theorem c8_witness :
    ((⟨"user", "X"⟩ : ChatMessage).role = "user" →
      (extract_filters_fallback c8WitnessMessages).main_query =
          (⟨"user", "X"⟩ : ChatMessage).content ∧
        lastUserContent c8WitnessMessages = some (⟨"user", "X"⟩ : ChatMessage).content) ∧
      ((⟨"user", "X"⟩ : ChatMessage).role ≠ "user" →
        (extract_filters_fallback c8WitnessMessages).main_query =
          joinUserContents c8WitnessMessages) :=
  c8_main_query_rule c8WitnessMessages ⟨"user", "X"⟩ rfl

/-- C9 (code bug): the try block does raise the operator-instructing
HTTPException when the index directory is missing, but the surrounding
`except Exception` handler catches that HTTPException too and replaces
it with the generic failure message, so the distinct setup message never
reaches the caller. -/
theorem c9_setup_message_swallowed (q : Except String (List ChatSearchResultItem)) :
    chatSearchTryBlock false "../../chroma_db" q =
      Except.error (PyExc.http ⟨500, setup_error_detail "../../chroma_db"⟩) ∧
      chatSearchQueryStep false "../../chroma_db" q =
        Except.error ⟨500, failed_query_detail⟩ ∧
      setup_error_detail "../../chroma_db" ≠ failed_query_detail := by
  refine ⟨rfl, rfl, by decide⟩
